import Mathlib

/-!
Verification of the weldmap-tool coordinate-transform and shape-geometry
engine (src/frontend/src/App.js) against its natural-language specification.

The JavaScript is shallowly embedded: every numeric value is a real number
(the spec's properties are stated "within floating tolerance", i.e. about the
exact real-valued computation), points are pairs of reals, the mutable React
state is an explicit record threaded through the event handlers, and each
relevant handler becomes a Lean function from the old state (plus the event
data) to the new state.
-/

namespace WeldMap

/-- A point, as the x/y object literals used throughout App.js. -/
@[ext]
structure Pt where
  x : ℝ
  y : ℝ

/-- One placed annotation record.  New-format records (handleCanvasMouseUp,
App.js 344-351) carry lineStart/lineEnd/symbolPosition; old-format records
(handleCanvasDrop, App.js 394-400) carry only a bare top-level x/y, embedded
here as legacyPos.  The id is a JS number obtained from Date.now(). -/
structure PlacedSymbol where
  id : ℤ
  type : String
  page : ℕ
  lineStart : Option Pt := none
  lineEnd : Option Pt := none
  symbolPosition : Option Pt := none
  legacyPos : Option Pt := none

/-- The slice of the App component's React state that the drawing,
panning, clicking and removal handlers read and write. -/
structure AppState where
  placedSymbols : List PlacedSymbol
  currentPage : ℕ
  selectedSymbolType : String
  isDrawingMode : Bool
  zoomLevel : ℝ
  panOffset : Pt
  isPanning : Bool
  lastPanPoint : Pt
  selectedSymbolId : Option ℤ
  isDrawingLine : Bool
  lineStart : Option Pt
  currentLineEnd : Option Pt
  previewLine : Option (Pt × Pt)
  draggedSymbol : Option String

/-- getCanvasCoordinates (App.js 176-191): screen point relative to the
canvas rectangle, converted to logical space accounting for zoom and pan:
x = (rawX - panOffset.x) / zoomLevel, and likewise for y. -/
noncomputable def getCanvasCoordinates (panOffset : Pt) (zoomLevel : ℝ) (raw : Pt) : Pt :=
  ⟨(raw.x - panOffset.x) / zoomLevel, (raw.y - panOffset.y) / zoomLevel⟩

/-- The rendering transform (App.js 923-924): scaledSymbolX/scaledSymbolY,
logical position scaled by zoomLevel then offset by panOffset. -/
noncomputable def toScreen (panOffset : Pt) (zoomLevel : ℝ) (p : Pt) : Pt :=
  ⟨p.x * zoomLevel + panOffset.x, p.y * zoomLevel + panOffset.y⟩

/-- Claim C1: for every logical point P, every zoom level z and every pan
offset O, mapping P to screen space as P * z + O and back to logical space
as (screen - O) / z (getCanvasCoordinates) returns P exactly, for every
zoomLevel > 0 (hence in particular on [0.2, 5.0]). -/
theorem C1_roundtrip_transform (O : Pt) (z : ℝ) (P : Pt) (hz : 0 < z) :
    getCanvasCoordinates O z (toScreen O z P) = P := by
  have hz0 : z ≠ 0 := ne_of_gt hz
  cases P with
  | mk px py =>
    simp only [getCanvasCoordinates, toScreen]
    ext
    · show (px * z + O.x - O.x) / z = px
      field_simp
    · show (py * z + O.y - O.y) / z = py
      field_simp

/-- Witness for C1 at zoom 2, pan (7, -3), point (11, 13). -/
theorem C1_roundtrip_transform_witness :
    (0 : ℝ) < 2 ∧
      getCanvasCoordinates ⟨7, -3⟩ 2 (toScreen ⟨7, -3⟩ 2 ⟨11, 13⟩) = ⟨11, 13⟩ :=
  ⟨by norm_num, C1_roundtrip_transform ⟨7, -3⟩ 2 ⟨11, 13⟩ (by norm_num)⟩

/-- JS Math.atan2(y, x): the angle of the vector (x, y), computed exactly as
the IEEE definition (signed zeros aside, which the real embedding has none
of): arctan(y/x) shifted into the correct quadrant. -/
noncomputable def atan2 (y x : ℝ) : ℝ :=
  if 0 < x then Real.arctan (y / x)
  else if x < 0 then
    if 0 ≤ y then Real.arctan (y / x) + Real.pi
    else Real.arctan (y / x) - Real.pi
  else
    if 0 < y then Real.pi / 2
    else if y < 0 then -(Real.pi / 2)
    else 0

/-- getShapeConnectionPoint (App.js 194-254): given the line's start point,
its end point (the symbol center) and the symbol type string, return the
point on the shape edge where the line must terminate.  The JS switch is
embedded as the equivalent if-chain, with the switch's default falling into
the field_weld (diamond) case. -/
noncomputable def getShapeConnectionPoint (lineStart lineEnd : Pt) (shapeType : String) : Pt :=
  let dx := lineEnd.x - lineStart.x
  let dy := lineEnd.y - lineStart.y
  let angle := atan2 dy dx
  let uniformSize : ℝ := 35 * 0.8
  let offset : Pt :=
    if shapeType = "pipe_section" ∨ shapeType = "pipe_support" then
      let rectWidth := uniformSize * 1.4
      let rectHeight := uniformSize * 0.7
      let absAngle := |angle|
      let isMoreHorizontal := absAngle < Real.pi / 4 ∨ absAngle > 3 * Real.pi / 4
      if isMoreHorizontal then
        ⟨if 0 < dx then -rectWidth / 2 else rectWidth / 2, 0⟩
      else
        ⟨0, if 0 < dy then -rectHeight / 2 else rectHeight / 2⟩
    else if shapeType = "flange_joint" then
      let hexRadius := uniformSize / 2 * 0.7
      ⟨-Real.cos angle * hexRadius, -Real.sin angle * hexRadius⟩
    else if shapeType = "shop_weld" then
      let circleRadius := uniformSize * 0.35
      ⟨-Real.cos angle * circleRadius, -Real.sin angle * circleRadius⟩
    else
      let diamondRadius := uniformSize / 2
      ⟨-Real.cos angle * diamondRadius, -Real.sin angle * diamondRadius⟩
  ⟨lineEnd.x + offset.x, lineEnd.y + offset.y⟩

/-- Euclidean distance between two points. -/
noncomputable def distPts (p q : Pt) : ℝ :=
  Real.sqrt ((p.x - q.x) ^ 2 + (p.y - q.y) ^ 2)

lemma sqrt_neg_trig_sq (θ r : ℝ) (hr : 0 ≤ r) :
    Real.sqrt ((-Real.cos θ * r) ^ 2 + (-Real.sin θ * r) ^ 2) = r := by
  have h : (-Real.cos θ * r) ^ 2 + (-Real.sin θ * r) ^ 2 = r ^ 2 := by
    have hs := Real.sin_sq_add_cos_sq θ
    nlinarith [hs]
  rw [h, Real.sqrt_sq hr]

/-- A point displaced from c by (-cos θ * r, -sin θ * r) is at distance r
from c, for r ≥ 0. -/
lemma dist_offset (c : Pt) (θ r : ℝ) (hr : 0 ≤ r) :
    distPts ⟨c.x + -Real.cos θ * r, c.y + -Real.sin θ * r⟩ c = r := by
  simp only [distPts]
  have hx : c.x + -Real.cos θ * r - c.x = -Real.cos θ * r := by ring
  have hy : c.y + -Real.sin θ * r - c.y = -Real.sin θ * r := by ring
  rw [hx, hy, sqrt_neg_trig_sq θ r hr]

/-- Claim C2: for the diamond (field_weld), circle (shop_weld) and hexagon
(flange_joint) kinds, and every placement of line start and symbol center
(hence every approach angle), the connection point lies at Euclidean
distance size/2, size*0.35 and (size/2)*0.7 respectively from the center,
where size is the uniform base size 35*0.8. -/
theorem C2_round_kinds_on_boundary (lineStart lineEnd : Pt) :
    distPts (getShapeConnectionPoint lineStart lineEnd "field_weld") lineEnd
        = (35 * 0.8) / 2 ∧
    distPts (getShapeConnectionPoint lineStart lineEnd "shop_weld") lineEnd
        = (35 * 0.8) * 0.35 ∧
    distPts (getShapeConnectionPoint lineStart lineEnd "flange_joint") lineEnd
        = (35 * 0.8) / 2 * 0.7 := by
  refine ⟨?_, ?_, ?_⟩
  · simp only [getShapeConnectionPoint]
    rw [if_neg (by decide), if_neg (by decide), if_neg (by decide)]
    exact dist_offset lineEnd _ _ (by norm_num)
  · simp only [getShapeConnectionPoint]
    rw [if_neg (by decide), if_neg (by decide), if_pos trivial]
    exact dist_offset lineEnd _ _ (by norm_num)
  · simp only [getShapeConnectionPoint]
    rw [if_neg (by decide), if_pos trivial]
    exact dist_offset lineEnd _ _ (by norm_num)

/-- Claim C3: for a rectangle-kind annotation (both pipe kinds share the
branch) with uniform base size 28 = 35*0.8 (so width 39.2 and height 19.6),
lineStart = (100,100) and symbol center (200,100), the approach is purely
horizontal (angle 0), the left edge is selected with offset (-width/2, 0),
and the connection point is exactly (180.4, 100). -/
theorem C3_rectangle_worked_example :
    getShapeConnectionPoint ⟨100, 100⟩ ⟨200, 100⟩ "pipe_section" = ⟨180.4, 100⟩ ∧
    getShapeConnectionPoint ⟨100, 100⟩ ⟨200, 100⟩ "pipe_support" = ⟨180.4, 100⟩ := by
  have h0 : atan2 ((100 : ℝ) - 100) ((200 : ℝ) - 100) = 0 := by
    unfold atan2
    rw [if_pos (by norm_num : (0 : ℝ) < 200 - 100)]
    norm_num
  have habs : |atan2 ((100 : ℝ) - 100) ((200 : ℝ) - 100)| < Real.pi / 4 ∨
      |atan2 ((100 : ℝ) - 100) ((200 : ℝ) - 100)| > 3 * Real.pi / 4 := by
    left
    rw [h0, abs_zero]
    have hpi := Real.pi_pos
    linarith
  constructor <;>
  · simp only [getShapeConnectionPoint]
    rw [if_pos habs, if_pos (by norm_num : (0 : ℝ) < 200 - 100)]
    norm_num [Pt.mk.injEq]

/-- The hit predicate of handleCanvasClick's find callback (App.js 264-271):
records without a symbolPosition never match; otherwise the Euclidean
distance from symbolPosition to the click point must be below the 30px
click tolerance. -/
noncomputable def symbolHit (a : PlacedSymbol) (pt : Pt) : Prop :=
  match a.symbolPosition with
  | none => False
  | some sp => Real.sqrt ((sp.x - pt.x) ^ 2 + (sp.y - pt.y) ^ 2) < 30

open Classical in
/-- The clickedSymbol computation of handleCanvasClick (App.js 264-271):
currentPageSymbols (placedSymbols filtered to the current page, App.js 81)
searched with Array.prototype.find, which yields the first element in
array order satisfying the predicate. -/
noncomputable def clickedSymbolOf (s : AppState) (pt : Pt) : Option PlacedSymbol :=
  (s.placedSymbols.filter (fun a => a.page == s.currentPage)).find?
    (fun a => decide (symbolHit a pt))

/-- removeSymbol (App.js 90-93): drop every record whose id equals the
argument, and unconditionally clear the selection. -/
def removeSymbol (s : AppState) (symbolId : ℤ) : AppState :=
  { s with placedSymbols := s.placedSymbols.filter (fun a => a.id != symbolId),
           selectedSymbolId := none }

open Classical in
/-- handleCanvasClick (App.js 256-295), for a click event with ctrl/meta
status and raw canvas-relative screen coordinates. -/
noncomputable def handleCanvasClick (s : AppState) (ctrlOrMeta : Bool) (raw : Pt) : AppState :=
  if ctrlOrMeta || s.isPanning then s
  else
    let pt := getCanvasCoordinates s.panOffset s.zoomLevel raw
    match clickedSymbolOf s pt with
    | some c =>
        if s.isDrawingMode then removeSymbol s c.id
        else { s with selectedSymbolId := some c.id }
    | none =>
        if s.isDrawingMode then { s with selectedSymbolId := none }
        else if !s.isDrawingLine then
          { s with isDrawingLine := true, lineStart := some pt,
                   currentLineEnd := some pt, previewLine := some (pt, pt) }
        else s

open Classical in
/-- handleCanvasMouseMove (App.js 298-321): in the panning branch the delta
added to panOffset is the difference of getCanvasCoordinates results (i.e.
logical-space points, already divided by zoomLevel and offset by the current
panOffset), not a raw screen delta; otherwise the drawing preview updates. -/
noncomputable def handleCanvasMouseMove (s : AppState) (raw : Pt) : AppState :=
  let p := getCanvasCoordinates s.panOffset s.zoomLevel raw
  if s.isPanning then
    { s with
      panOffset := ⟨s.panOffset.x + (p.x - s.lastPanPoint.x),
                    s.panOffset.y + (p.y - s.lastPanPoint.y)⟩,
      lastPanPoint := p }
  else
    match s.isDrawingLine, s.lineStart with
    | true, some ls => { s with currentLineEnd := some p, previewLine := some (ls, p) }
    | _, _ => s

/-- handleMouseDown (App.js 366-373): a ctrl/meta pointer-down starts a pan,
capturing lastPanPoint via getCanvasCoordinates (a logical-space point). -/
noncomputable def handleMouseDown (s : AppState) (ctrlOrMeta : Bool) (raw : Pt) : AppState :=
  if ctrlOrMeta then
    { s with isPanning := true,
             lastPanPoint := getCanvasCoordinates s.panOffset s.zoomLevel raw }
  else s

open Classical in
/-- handleCanvasMouseUp (App.js 324-363): finishes a pan, or finishes a
line-drawing gesture: if the drawn segment's length exceeds 10 logical
pixels, a new record with id Date.now() (the now argument), the selected
symbol type, the current page, the captured lineStart, the connection point
as lineEnd and the release point as symbolPosition is appended; in either
case the drawing state is reset and the selection cleared. -/
noncomputable def handleCanvasMouseUp (s : AppState) (raw : Pt) (now : ℤ) : AppState :=
  if s.isPanning then { s with isPanning := false }
  else
    match s.isDrawingLine, s.lineStart with
    | true, some ls =>
        let p := getCanvasCoordinates s.panOffset s.zoomLevel raw
        let lineLength := Real.sqrt ((p.x - ls.x) ^ 2 + (p.y - ls.y) ^ 2)
        let syms :=
          if lineLength > 10 then
            s.placedSymbols ++
              [{ id := now, type := s.selectedSymbolType, page := s.currentPage,
                 lineStart := some ls,
                 lineEnd := some (getShapeConnectionPoint ls p s.selectedSymbolType),
                 symbolPosition := some p }]
          else s.placedSymbols
        { s with placedSymbols := syms, isDrawingLine := false, lineStart := none,
                 currentLineEnd := none, previewLine := none, selectedSymbolId := none }
    | _, _ => s

/-- handleCanvasDrop (App.js 390-404): dropping a dragged palette symbol
creates an old-format record { id: Date.now(), type, x, y, page }. -/
noncomputable def handleCanvasDrop (s : AppState) (raw : Pt) (now : ℤ) : AppState :=
  match s.draggedSymbol with
  | some t =>
      let newSymbol : PlacedSymbol :=
        { id := now, type := t, page := s.currentPage,
          legacyPos := some (getCanvasCoordinates s.panOffset s.zoomLevel raw) }
      { s with placedSymbols := s.placedSymbols ++ [newSymbol],
               draggedSymbol := none }
  | none => s

/-- Modelled from the spec: the backend export code (the Python server) is
not under src; the per-point formula x_out = x * scale_x,
y_out = pdf_height - y * scale_y is taken verbatim from the LOCKED
ANNOTATION SYSTEM snippet in src/unnamed/part_004 (lines 180-189), and the
missing scale-factor derivation scaleX = pageW / refW, scaleY = pageH / refH
from spec section 4.5 step 1. -/
noncomputable def exportMapPoint (refW refH pageW pageH : ℝ) (p : Pt) : Pt :=
  ⟨p.x * (pageW / refW), pageH - p.y * (pageH / refH)⟩

/-- A concrete quiescent state used by the closed evaluation theorems:
no symbols, page 0, default zoom and pan, nothing in progress. -/
def idleState : AppState :=
  { placedSymbols := [], currentPage := 0, selectedSymbolType := "field_weld",
    isDrawingMode := false, zoomLevel := 1, panOffset := ⟨0, 0⟩,
    isPanning := false, lastPanPoint := ⟨0, 0⟩, selectedSymbolId := none,
    isDrawingLine := false, lineStart := none, currentLineEnd := none,
    previewLine := none, draggedSymbol := none }

/-- Claim C10: removing any id always clears the selection, whatever the
store contents, the removed id and the prior selection. -/
theorem C10_remove_always_clears_selection (s : AppState) (r : ℤ) :
    (removeSymbol s r).selectedSymbolId = none := rfl

/-- Claim C8: with reference canvas 800x600 and output page 1600x1200, the
export mapping sends logical (0,0) to output (0, 1200) and logical
(800,600) to output (1600, 0). -/
theorem C8_export_corner_mapping :
    exportMapPoint 800 600 1600 1200 ⟨0, 0⟩ = ⟨0, 1200⟩ ∧
    exportMapPoint 800 600 1600 1200 ⟨800, 600⟩ = ⟨1600, 0⟩ := by
  constructor <;>
  · simp only [exportMapPoint]
    ext <;> norm_num

/-- State at the start of a pan gesture test: zoom 2, everything else idle. -/
def panState : AppState := { idleState with zoomLevel := 2 }

/-- Claim C4 is false of the code: with zoom 2 and pan (0,0), pressing at
screen (0,0) and moving to screen (10,0) adds only 5 to panOffset.x (the
10-pixel screen delta divided by zoomLevel, re-derived through
getCanvasCoordinates), and a second move event at the same screen point
(10,0) shifts panOffset again to 2.5 because the already-updated panOffset
feeds back into the re-derivation. -/
theorem C4_pan_delta_rederived_eval :
    (handleCanvasMouseMove (handleMouseDown panState true ⟨0, 0⟩) ⟨10, 0⟩).panOffset
        = ⟨5, 0⟩ ∧
    (handleCanvasMouseMove
        (handleCanvasMouseMove (handleMouseDown panState true ⟨0, 0⟩) ⟨10, 0⟩)
        ⟨10, 0⟩).panOffset = ⟨2.5, 0⟩ := by
  constructor <;>
  · simp only [handleCanvasMouseMove, handleMouseDown, getCanvasCoordinates,
      panState, idleState]
    norm_num [Pt.mk.injEq]

/-- State with a palette symbol being dragged, ready for a canvas drop. -/
def dropState : AppState := { idleState with draggedSymbol := some "field_weld" }

/-- Claim C9 is false of the code as an unconditional invariant: two
annotations created during the same millisecond — Date.now() returning 1000
for both drop events — receive the same id 1000, neither distinct nor
strictly increasing. -/
theorem C9_duplicate_ids_same_millisecond :
    ((handleCanvasDrop
        { (handleCanvasDrop dropState ⟨1, 1⟩ 1000) with draggedSymbol := some "shop_weld" }
        ⟨2, 2⟩ 1000).placedSymbols.map (fun a => a.id)) = [1000, 1000] := by
  simp [handleCanvasDrop, dropState, idleState]

/-- Claim C5: on pointer release ending a line-drawing gesture (not a pan),
a logical segment length at most 10 leaves the annotation collection
completely unchanged, while a length above 10 appends exactly one record
whose symbolPosition is the release point and whose lineEnd is the
ShapeGeometry connection point for the currently selected symbol type. -/
theorem C5_discard_threshold (s : AppState) (raw : Pt) (now : ℤ) (ls p : Pt)
    (hpan : s.isPanning = false) (hdraw : s.isDrawingLine = true)
    (hls : s.lineStart = some ls)
    (hp : p = getCanvasCoordinates s.panOffset s.zoomLevel raw) :
    (Real.sqrt ((p.x - ls.x) ^ 2 + (p.y - ls.y) ^ 2) ≤ 10 →
        (handleCanvasMouseUp s raw now).placedSymbols = s.placedSymbols) ∧
    (10 < Real.sqrt ((p.x - ls.x) ^ 2 + (p.y - ls.y) ^ 2) →
        (handleCanvasMouseUp s raw now).placedSymbols
          = s.placedSymbols ++
            [{ id := now, type := s.selectedSymbolType, page := s.currentPage,
               lineStart := some ls,
               lineEnd := some (getShapeConnectionPoint ls p s.selectedSymbolType),
               symbolPosition := some p }]) := by
  subst hp
  simp only [handleCanvasMouseUp, hpan, hdraw, hls]
  constructor
  · intro h
    rw [if_neg (not_lt.mpr h)]
    simp
  · intro h
    rw [if_pos h]
    simp

/-- Drawing-gesture state: a line started at the origin, everything else
idle. -/
def drawState : AppState :=
  { idleState with isDrawingLine := true, lineStart := some ⟨0, 0⟩ }

/-- Witness for C5: releasing at logical (0,20) after starting at (0,0) is a
length-20 gesture, which commits exactly one field_weld record. -/
theorem C5_discard_threshold_witness :
    (handleCanvasMouseUp drawState ⟨0, 20⟩ 42).placedSymbols
      = [{ id := 42, type := "field_weld", page := 0,
           lineStart := some ⟨0, 0⟩,
           lineEnd := some (getShapeConnectionPoint ⟨0, 0⟩ ⟨0, 20⟩ "field_weld"),
           symbolPosition := some ⟨0, 20⟩ }] := by
  have hlen : (10 : ℝ) <
      Real.sqrt (((⟨0, 20⟩ : Pt).x - (⟨0, 0⟩ : Pt).x) ^ 2 +
        ((⟨0, 20⟩ : Pt).y - (⟨0, 0⟩ : Pt).y) ^ 2) := by
    have h4 : ((⟨0, 20⟩ : Pt).x - (⟨0, 0⟩ : Pt).x) ^ 2 +
        ((⟨0, 20⟩ : Pt).y - (⟨0, 0⟩ : Pt).y) ^ 2 = 20 ^ 2 := by norm_num
    rw [h4, Real.sqrt_sq (by norm_num : (0 : ℝ) ≤ 20)]
    norm_num
  have h := (C5_discard_threshold drawState ⟨0, 20⟩ 42 ⟨0, 0⟩ ⟨0, 20⟩ rfl rfl rfl
      (by ext <;> norm_num [getCanvasCoordinates, drawState, idleState])).2 hlen
  simpa [drawState, idleState] using h

/-- Drawing-gesture state whose selected symbol type lies outside the
five-kind catalog. -/
def bogusDrawState : AppState := { drawState with selectedSymbolType := "bogus" }

/-- Claim C7 is false of the code: committing a gesture with the unknown
kind "bogus" stores one annotation (nothing rejects it), and the unknown
kind's connection geometry is silently the diamond (field_weld) default
branch of getShapeConnectionPoint's switch. -/
theorem C7_counterexample :
    (handleCanvasMouseUp bogusDrawState ⟨0, 20⟩ 7).placedSymbols.length = 1 ∧
    getShapeConnectionPoint ⟨0, 0⟩ ⟨0, 20⟩ "bogus"
      = getShapeConnectionPoint ⟨0, 0⟩ ⟨0, 20⟩ "field_weld" := by
  constructor
  · have hlen : (10 : ℝ) <
        Real.sqrt (((0 - 0 : ℝ) / 1 - 0) ^ 2 + ((20 - 0 : ℝ) / 1 - 0) ^ 2) := by
      have h4 : ((0 - 0 : ℝ) / 1 - 0) ^ 2 + ((20 - 0 : ℝ) / 1 - 0) ^ 2 = 20 ^ 2 := by
        norm_num
      rw [h4, Real.sqrt_sq (by norm_num : (0 : ℝ) ≤ 20)]
      norm_num
    simp only [handleCanvasMouseUp, bogusDrawState, drawState, idleState,
      getCanvasCoordinates]
    rw [if_pos hlen]
    simp
  · simp only [getShapeConnectionPoint]
    rw [if_neg (by decide), if_neg (by decide), if_neg (by decide),
      if_neg (by decide), if_neg (by decide), if_neg (by decide)]

/-- Claim C7 amended: a kind outside the catalog is not rejected — every
symbol type other than the four explicitly cased kinds takes the diamond
(field_weld) default branch of getShapeConnectionPoint, so an unknown kind
gets exactly the field_weld connection geometry (and, per C5, the gesture
commits the annotation like any other). -/
theorem C7_amended_unknown_kind_defaults_to_diamond (ls le : Pt) (t : String)
    (h1 : t ≠ "pipe_section") (h2 : t ≠ "pipe_support")
    (h3 : t ≠ "flange_joint") (h4 : t ≠ "shop_weld") :
    getShapeConnectionPoint ls le t = getShapeConnectionPoint ls le "field_weld" := by
  simp only [getShapeConnectionPoint]
  rw [if_neg (not_or.mpr ⟨h1, h2⟩), if_neg h3, if_neg h4,
    if_neg (by decide), if_neg (by decide), if_neg (by decide)]

/-- Witness for the amended C7 at the unknown kind "mystery_weld". -/
theorem C7_amended_witness :
    getShapeConnectionPoint ⟨1, 2⟩ ⟨3, 4⟩ "mystery_weld"
      = getShapeConnectionPoint ⟨1, 2⟩ ⟨3, 4⟩ "field_weld" :=
  C7_amended_unknown_kind_defaults_to_diamond ⟨1, 2⟩ ⟨3, 4⟩ "mystery_weld"
    (by decide) (by decide) (by decide) (by decide)

/-- A first annotation placed at the origin of page 0. -/
def symA : PlacedSymbol :=
  { id := 1, type := "field_weld", page := 0, symbolPosition := some ⟨0, 0⟩ }

/-- A second annotation, created later, also at the origin of page 0. -/
def symB : PlacedSymbol :=
  { id := 2, type := "field_weld", page := 0, symbolPosition := some ⟨0, 0⟩ }

/-- Idle state whose store holds symA then symB (insertion order). -/
def clickState : AppState := { idleState with placedSymbols := [symA, symB] }

open Classical in
/-- Array.prototype.find semantics: the first element in array order
satisfying the predicate wins; later matches are ignored. -/
lemma find_first_hit (pt : Pt) (page : ℕ) (l₁ l₂ : List PlacedSymbol)
    (a : PlacedSymbol) (hpage : a.page = page) (hhit : symbolHit a pt)
    (hprev : ∀ b ∈ l₁, b.page = page → ¬ symbolHit b pt) :
    ((l₁ ++ a :: l₂).filter (fun b => b.page == page)).find?
        (fun b => decide (symbolHit b pt)) = some a := by
  induction l₁ with
  | nil =>
      rw [List.nil_append, List.filter_cons_of_pos (by simpa using hpage),
        List.find?_cons_of_pos _ (by simpa using hhit)]
  | cons b l₁ ih =>
      rw [List.cons_append]
      by_cases hb : b.page = page
      · have hbhit : ¬ symbolHit b pt := hprev b (List.mem_cons_self b l₁) hb
        rw [List.filter_cons_of_pos (by simpa using hb),
          List.find?_cons_of_neg _ (by simpa using hbhit)]
        exact ih (fun c hc hcp => hprev c (List.mem_cons_of_mem b hc) hcp)
      · rw [List.filter_cons_of_neg (by simpa using hb)]
        exact ih (fun c hc hcp => hprev c (List.mem_cons_of_mem b hc) hcp)

lemma symbolHit_origin_of_origin (a : PlacedSymbol)
    (h : a.symbolPosition = some ⟨0, 0⟩) : symbolHit a (⟨0, 0⟩ : Pt) := by
  simp only [symbolHit, h]
  have h0 : ((0 : ℝ) - 0) ^ 2 + ((0 : ℝ) - 0) ^ 2 = 0 := by norm_num
  rw [h0, Real.sqrt_zero]
  norm_num

/-- Claim C6 is false of the code: with symA (id 1) created before symB
(id 2), both within the 30px click tolerance of the click point, the click
selects symA — the EARLIEST created — although symB also matches and was
created more recently. -/
theorem C6_counterexample :
    (handleCanvasClick clickState false ⟨0, 0⟩).selectedSymbolId = some symA.id ∧
    symbolHit symB
      (getCanvasCoordinates clickState.panOffset clickState.zoomLevel ⟨0, 0⟩) ∧
    symA.id ≠ symB.id := by
  have hpt : getCanvasCoordinates clickState.panOffset clickState.zoomLevel ⟨0, 0⟩
      = ⟨0, 0⟩ := by
    ext <;> norm_num [getCanvasCoordinates, clickState, idleState]
  have hhA : symbolHit symA (⟨0, 0⟩ : Pt) := symbolHit_origin_of_origin symA rfl
  have hhB : symbolHit symB (⟨0, 0⟩ : Pt) := symbolHit_origin_of_origin symB rfl
  refine ⟨?_, by rw [hpt]; exact hhB, by simp [symA, symB]⟩
  have hfind : clickedSymbolOf clickState
      (getCanvasCoordinates clickState.panOffset clickState.zoomLevel ⟨0, 0⟩)
      = some symA := by
    rw [hpt]
    unfold clickedSymbolOf
    have hsplit : clickState.placedSymbols = [] ++ symA :: [symB] := by
      simp [clickState, idleState]
    rw [hsplit]
    exact find_first_hit ⟨0, 0⟩ clickState.currentPage [] [symB] symA rfl hhA
      (by simp)
  simp only [handleCanvasClick]
  rw [if_neg (by simp [clickState, idleState])]
  rw [hfind]
  simp [clickState, idleState]

/-- Claim C6 amended: when a click hit-tests the current page's annotations
and several match, the FIRST matching annotation in insertion order — the
EARLIEST created — is the one found (Array.prototype.find returns the first
match), not the most recently created one. -/
theorem C6_amended_earliest_match_wins (s : AppState) (pt : Pt)
    (l₁ l₂ : List PlacedSymbol) (a : PlacedSymbol)
    (hsplit : s.placedSymbols = l₁ ++ a :: l₂)
    (hpage : a.page = s.currentPage) (hhit : symbolHit a pt)
    (hprev : ∀ b ∈ l₁, b.page = s.currentPage → ¬ symbolHit b pt) :
    clickedSymbolOf s pt = some a := by
  unfold clickedSymbolOf
  rw [hsplit]
  exact find_first_hit pt s.currentPage l₁ l₂ a hpage hhit hprev

/-- Witness for the amended C6: in the two-match store, the hit test finds
symA, the earliest created of the two matching annotations. -/
theorem C6_amended_witness : clickedSymbolOf clickState ⟨0, 0⟩ = some symA := by
  apply C6_amended_earliest_match_wins clickState ⟨0, 0⟩ [] [symB] symA
  · simp [clickState, idleState]
  · rfl
  · exact symbolHit_origin_of_origin symA rfl
  · simp

end WeldMap
